import Mathlib

/-
Verification development for the Tiger agent (src/tiger_agent.py).

The Python module is shallowly embedded:
  * JSON values (Python dicts/lists produced by `json.loads`) are the
    inductive `Json`; numbers are modelled as exact rationals.
  * `json.loads` is modelled by the executable parser `Json.parse`;
    `re.search(r'\{.*\}', s, re.DOTALL)` is modelled by `extractGreedy`
    (leftmost `{` through the greedy last `}`).
  * The language-model transport (`self.ai.messages.create`) is an external
    collaborator: each call is modelled by an `Option String` input,
    `none` meaning the call raised, `some t` meaning reply text `t`.
  * Fallible code returns `Except`/`Option`; `try/except` blocks map the
    exceptional branches to the handler's value.
-/

set_option autoImplicit false

namespace Tiger

/-- Json models the values Python's `json.loads` can return (dicts keep
insertion order, so objects are association lists).  A number is kept as an
exact unnormalized fraction `n / d` (with `d ≠ 0` for every value this
development constructs); decimals stay exact and all arithmetic is
`Int`/`Nat`, so terms evaluate by kernel reduction. -/
inductive Json where
  | null
  | bool (b : Bool)
  | num (n : Int) (d : Nat)
  | str (s : String)
  | arr (elems : List Json)
  | obj (fields : List (String × Json))

instance : Inhabited Json := ⟨Json.null⟩

/-- Opening brace character (kept out of literals). -/
def lbrace : Char := Char.ofNat 123

/-- Closing brace character (kept out of literals). -/
def rbrace : Char := Char.ofNat 125

/-- Opening bracket character. -/
def lbrack : Char := Char.ofNat 91

/-- Python dict assignment `d[k] = v` on an association list: replace the
value at the first occurrence of `k` in place, else append at the end. -/
def assocSet : List (String × Json) → String → Json → List (String × Json)
  | [], k, v => [(k, v)]
  | (k', v') :: rest, k, v =>
    if k' = k then (k', v) :: rest else (k', v') :: assocSet rest k v

/-- Python dict lookup `d[k]` (as an `Option`; `none` models `KeyError`).
On a non-dict value it yields `none`; call sites that would raise
`TypeError` in Python guard for the object shape separately. -/
def Json.getField (j : Json) (k : String) : Option Json :=
  match j with
  | .obj kvs => List.lookup k kvs
  | _ => none

/-- Python `d.get(k, dflt)`. -/
def Json.getFieldD (j : Json) (k : String) (d : Json) : Json :=
  (j.getField k).getD d

/-- Python dict assignment `d[k] = v` lifted to `Json`. -/
def Json.setField (j : Json) (k : String) (v : Json) : Json :=
  match j with
  | .obj kvs => .obj (assocSet kvs k v)
  | _ => j

/-- JSON whitespace. -/
def isWs (c : Char) : Bool :=
  c = ' ' || c = '\t' || c = '\n' || c = '\r'

/-- Drop leading JSON whitespace. -/
def skipWs : List Char → List Char
  | [] => []
  | c :: cs => if isWs c then skipWs cs else c :: cs

/-- Split off a leading run of decimal digits. -/
def takeDigits : List Char → List Char × List Char
  | [] => ([], [])
  | c :: cs =>
    if c.isDigit then
      let p := takeDigits cs
      (c :: p.1, p.2)
    else ([], c :: cs)

/-- Value of a digit run. -/
def digitsToNat (ds : List Char) : Nat :=
  ds.foldl (fun n c => 10 * n + (c.toNat - 48)) 0

/-- Optional leading minus sign of a JSON number. -/
def signSplit (cs : List Char) : Bool × List Char :=
  match cs with
  | c :: r => if c = '-' then (true, r) else (false, cs)
  | [] => (false, [])

/-- Optional sign of a JSON exponent. -/
def expSign (cs : List Char) : Bool × List Char :=
  match cs with
  | c :: r =>
    if c = '-' then (true, r) else if c = '+' then (false, r) else (false, cs)
  | [] => (false, [])

/-- Optional exponent suffix of a JSON number, applied to the fraction
`n / d` accumulated so far. -/
def parseExpPart (n : Int) (d : Nat) (cs : List Char) :
    Option ((Int × Nat) × List Char) :=
  match cs with
  | c :: r =>
    if c = 'e' || c = 'E' then
      let s := expSign r
      let p := takeDigits s.2
      if p.1.isEmpty then none
      else
        let e := digitsToNat p.1
        some (if s.1 then (n, d * 10 ^ e) else (n * (10 : Int) ^ e, d), p.2)
    else some ((n, d), cs)
  | [] => some ((n, d), [])

/-- JSON number grammar (as accepted by `json.loads`): optional minus,
integer part without leading zeros, optional fraction, optional exponent. -/
def parseNumber (cs : List Char) : Option ((Int × Nat) × List Char) :=
  let sg := signSplit cs
  let ip := takeDigits sg.2
  if ip.1.isEmpty then none
  else if ip.1.length > 1 && ip.1.head? = some '0' then none
  else
    let ipn : Nat := digitsToNat ip.1
    let withSign : (Int × Nat) × List Char → (Int × Nat) × List Char :=
      fun p => ((if sg.1 then -p.1.1 else p.1.1, p.1.2), p.2)
    match ip.2 with
    | c :: r2 =>
      if c = '.' then
        let fr := takeDigits r2
        if fr.1.isEmpty then none
        else
          let den := 10 ^ fr.1.length
          let n : Int := (ipn * den + digitsToNat fr.1 : Nat)
          (parseExpPart n den fr.2).map withSign
      else (parseExpPart (ipn : Int) 1 ip.2).map withSign
    | [] => some ((if sg.1 then -(ipn : Int) else (ipn : Int), 1), [])

/-- Hexadecimal digit value. -/
def hexVal (c : Char) : Option Nat :=
  if c.isDigit then some (c.toNat - 48)
  else if 'a' ≤ c && c ≤ 'f' then some (c.toNat - 87)
  else if 'A' ≤ c && c ≤ 'F' then some (c.toNat - 55)
  else none

/-- Single-character JSON string escapes. -/
def escChar (c : Char) : Option Char :=
  if c = '\"' then some '\"'
  else if c = '\\' then some '\\'
  else if c = '/' then some '/'
  else if c = 'n' then some '\n'
  else if c = 't' then some '\t'
  else if c = 'r' then some '\r'
  else if c = 'b' then some (Char.ofNat 8)
  else if c = 'f' then some (Char.ofNat 12)
  else none

/-- Body of a JSON string after the opening quote: returns the decoded
characters and the input remaining after the closing quote. -/
def parseStringBody : Nat → List Char → Option (List Char × List Char)
  | 0, _ => none
  | _ + 1, [] => none
  | fuel + 1, c :: cs =>
    if c = '\"' then some ([], cs)
    else if c = '\\' then
      match cs with
      | [] => none
      | e :: cs1 =>
        if e = 'u' then
          match cs1 with
          | h1 :: h2 :: h3 :: h4 :: cs2 =>
            match hexVal h1, hexVal h2, hexVal h3, hexVal h4 with
            | some a, some b, some c2, some d =>
              (parseStringBody fuel cs2).map
                (fun p => (Char.ofNat (((a * 16 + b) * 16 + c2) * 16 + d) :: p.1, p.2))
            | _, _, _, _ => none
          | _ => none
        else
          match escChar e with
          | some ec => (parseStringBody fuel cs1).map (fun p => (ec :: p.1, p.2))
          | none => none
    else if c.toNat < 32 then none
    else (parseStringBody fuel cs).map (fun p => (c :: p.1, p.2))

/-- Check that the input starts with the given literal characters. -/
def dropLit : List Char → List Char → Option (List Char)
  | [], cs => some cs
  | l :: ls, c :: cs => if c = l then dropLit ls cs else none
  | _ :: _, [] => none

mutual

/-- Recursive-descent JSON value grammar (fuel-indexed so every function is
total; `Json.parse` supplies ample fuel). -/
def parseValue : Nat → List Char → Option (Json × List Char)
  | 0, _ => none
  | fuel + 1, cs =>
    match skipWs cs with
    | [] => none
    | c :: cs1 =>
      if c = lbrace then parseObjFirst fuel cs1
      else if c = lbrack then parseArrFirst fuel cs1
      else if c = '\"' then
        (parseStringBody (cs1.length + 1) cs1).map
          (fun p => (Json.str (String.mk p.1), p.2))
      else if c = 't' then
        (dropLit ['r', 'u', 'e'] cs1).map (fun r => (Json.bool true, r))
      else if c = 'f' then
        (dropLit ['a', 'l', 's', 'e'] cs1).map (fun r => (Json.bool false, r))
      else if c = 'n' then
        (dropLit ['u', 'l', 'l'] cs1).map (fun r => (Json.null, r))
      else
        (parseNumber (c :: cs1)).map (fun p => (Json.num p.1.1 p.1.2, p.2))

/-- After an opening brace: empty object or first member. -/
def parseObjFirst : Nat → List Char → Option (Json × List Char)
  | 0, _ => none
  | fuel + 1, cs =>
    match skipWs cs with
    | [] => none
    | c :: cs1 =>
      if c = rbrace then some (Json.obj [], cs1)
      else if c = '\"' then
        match parseStringBody (cs1.length + 1) cs1 with
        | none => none
        | some (k, r1) => parseMember fuel (String.mk k) r1 []
      else none

/-- Parse `: value` after a member key, then continue with the rest of the
object (duplicate keys overwrite in place, as Python dicts do). -/
def parseMember : Nat → String → List Char → List (String × Json) →
    Option (Json × List Char)
  | 0, _, _, _ => none
  | fuel + 1, k, cs, acc =>
    match skipWs cs with
    | [] => none
    | c :: cs1 =>
      if c = ':' then
        match parseValue fuel cs1 with
        | none => none
        | some (v, r) => parseObjMore fuel r (assocSet acc k v)
      else none

/-- After a member: either a closing brace or a comma and another member. -/
def parseObjMore : Nat → List Char → List (String × Json) →
    Option (Json × List Char)
  | 0, _, _ => none
  | fuel + 1, cs, acc =>
    match skipWs cs with
    | [] => none
    | c :: cs1 =>
      if c = rbrace then some (Json.obj acc, cs1)
      else if c = ',' then
        match skipWs cs1 with
        | c2 :: cs2 =>
          if c2 = '\"' then
            match parseStringBody (cs2.length + 1) cs2 with
            | none => none
            | some (k, r1) => parseMember fuel (String.mk k) r1 acc
          else none
        | [] => none
      else none

/-- After an opening bracket: empty array or first element. -/
def parseArrFirst : Nat → List Char → Option (Json × List Char)
  | 0, _ => none
  | fuel + 1, cs =>
    match skipWs cs with
    | [] => none
    | c :: cs1 =>
      if c = ']' then some (Json.arr [], cs1)
      else
        match parseValue fuel (c :: cs1) with
        | none => none
        | some (v, r) => parseArrMore fuel r [v]

/-- After an element: either a closing bracket or a comma and another
element. -/
def parseArrMore : Nat → List Char → List Json → Option (Json × List Char)
  | 0, _, _ => none
  | fuel + 1, cs, acc =>
    match skipWs cs with
    | [] => none
    | c :: cs1 =>
      if c = ']' then some (Json.arr acc, cs1)
      else if c = ',' then
        match parseValue fuel cs1 with
        | none => none
        | some (v, r) => parseArrMore fuel r (acc ++ [v])
      else none

end

/-- Model of Python's `json.loads`: parse one JSON document, requiring the
whole input (up to whitespace) to be consumed; `none` models the raised
`JSONDecodeError`. -/
def Json.parse (s : String) : Option Json :=
  let cs := s.toList
  match parseValue (4 * cs.length + 16) cs with
  | some (j, rest) => if (skipWs rest).isEmpty then some j else none
  | none => none

/-- Model of `re.search(r'\{.*\}', s, re.DOTALL)`: the match, when it
exists, runs from the first opening brace to the last closing brace after
it (the greedy leftmost match). -/
def extractGreedy (s : String) : Option String :=
  let cs := s.toList
  match cs.findIdx? (fun c => c == lbrace), cs.reverse.findIdx? (fun c => c == rbrace) with
  | some i, some rj =>
    let j := cs.length - 1 - rj
    if i < j then some (String.mk ((cs.drop i).take (j + 1 - i))) else none
  | _, _ => none

/-- Scan for the matching closing brace at depth, accumulating the region. -/
def braceScan : List Char → Nat → List Char → Option (List Char)
  | [], _, _ => none
  | c :: cs, depth, acc =>
    if c = lbrace then braceScan cs (depth + 1) (c :: acc)
    else if c = rbrace then
      if depth = 1 then some (c :: acc).reverse
      else braceScan cs (depth - 1) (c :: acc)
    else braceScan cs depth (c :: acc)

/-- Modelled from the spec: "locate the first balanced brace-delimited
region" of a free-text reply.  This is the extraction rule the spec
describes; it is compared against `extractGreedy`, which is what the code
does. -/
def specExtractFirstBalanced (s : String) : Option String :=
  let cs := s.toList
  match cs.findIdx? (fun c => c == lbrace) with
  | none => none
  | some i => (braceScan (cs.drop i) 0 []).map String.mk

/-- The dict `log_decision` appends to `memory["decisions"]`.  Fields
copied out of an oracle dict are arbitrary `Json` values. -/
structure DecisionRecord where
  timestamp : String
  trend : Json
  decision : Json
  confidence : Json
  reasoning : Json
  ai_powered : Bool
  estimated_price : Option Json

/-- The dict `log_product_creation` appends to
`memory["products_created"]` (built in `run_cycle`). -/
structure ProductRecord where
  timestamp : String
  trend : Json
  filename : String
  filepath : String
  title : Json
  estimated_price : Json
  status : String

/-- The persistent memory dict, in the shape this program reads and
writes (`load_memory` defaults, `log_decision`, `log_product_creation`).
`total_revenue` and `learnings` are carried but never touched by a cycle. -/
structure MemoryRecord where
  decisions : List DecisionRecord
  products_created : List ProductRecord
  successful_niches : List String
  failed_niches : List String
  total_revenue : Json
  learnings : List Json

/-- JSON shape of a decision record, with the key order `log_decision`
uses; `estimated_price` is present only when it was set. -/
def serializeDecision (r : DecisionRecord) : Json :=
  .obj ([("timestamp", .str r.timestamp), ("trend", r.trend),
         ("decision", r.decision), ("confidence", r.confidence),
         ("reasoning", r.reasoning), ("ai_powered", .bool r.ai_powered)] ++
    (match r.estimated_price with
     | some p => [("estimated_price", p)]
     | none => []))

/-- Decode a decision record from its JSON shape. -/
def parseDecision (j : Json) : Option DecisionRecord := do
  let ts ← j.getField "timestamp"
  let tsS ← match ts with | .str s => some s | _ => none
  let tr ← j.getField "trend"
  let de ← j.getField "decision"
  let co ← j.getField "confidence"
  let re ← j.getField "reasoning"
  let ap ← j.getField "ai_powered"
  let apB ← match ap with | .bool b => some b | _ => none
  pure { timestamp := tsS, trend := tr, decision := de, confidence := co,
         reasoning := re, ai_powered := apB,
         estimated_price := j.getField "estimated_price" }

/-- JSON shape of a product record, with the key order `run_cycle` uses. -/
def serializeProduct (r : ProductRecord) : Json :=
  .obj [("timestamp", .str r.timestamp), ("trend", r.trend),
        ("filename", .str r.filename), ("filepath", .str r.filepath),
        ("title", r.title), ("estimated_price", r.estimated_price),
        ("status", .str r.status)]

/-- Decode a product record from its JSON shape. -/
def parseProduct (j : Json) : Option ProductRecord := do
  let ts ← j.getField "timestamp"
  let tsS ← match ts with | .str s => some s | _ => none
  let tr ← j.getField "trend"
  let fn ← j.getField "filename"
  let fnS ← match fn with | .str s => some s | _ => none
  let fp ← j.getField "filepath"
  let fpS ← match fp with | .str s => some s | _ => none
  let ti ← j.getField "title"
  let ep ← j.getField "estimated_price"
  let st ← j.getField "status"
  let stS ← match st with | .str s => some s | _ => none
  pure { timestamp := tsS, trend := tr, filename := fnS, filepath := fpS,
         title := ti, estimated_price := ep, status := stS }

/-- JSON shape of the whole memory dict, with the key order of the default
dict in `load_memory`. -/
def serializeMemory (m : MemoryRecord) : Json :=
  .obj [("decisions", .arr (m.decisions.map serializeDecision)),
        ("products_created", .arr (m.products_created.map serializeProduct)),
        ("successful_niches", .arr (m.successful_niches.map Json.str)),
        ("failed_niches", .arr (m.failed_niches.map Json.str)),
        ("total_revenue", m.total_revenue),
        ("learnings", .arr m.learnings)]

/-- Decode every element of a list, failing when any element fails. -/
def decodeList {α : Type} (g : Json → Option α) : List Json → Option (List α)
  | [] => some []
  | j :: js =>
    match g j with
    | none => none
    | some a => (decodeList g js).map (fun as => a :: as)

/-- Decode a JSON string. -/
def decodeString : Json → Option String
  | .str s => some s
  | _ => none

/-- Decode the memory dict from its JSON shape. -/
def parseMemory (j : Json) : Option MemoryRecord :=
  match j.getField "decisions", j.getField "products_created",
        j.getField "successful_niches", j.getField "failed_niches",
        j.getField "total_revenue", j.getField "learnings" with
  | some (.arr dsL), some (.arr psL), some (.arr snL), some (.arr fnL),
    some tr, some (.arr leL) =>
    match decodeList parseDecision dsL, decodeList parseProduct psL,
          decodeList decodeString snL, decodeList decodeString fnL with
    | some ds, some ps, some sn, some fn =>
      some { decisions := ds, products_created := ps,
             successful_niches := sn, failed_niches := fn,
             total_revenue := tr, learnings := leL }
    | _, _, _, _ => none
  | _, _, _, _, _, _ => none

/-- The default dict literal returned by `load_memory` when no memory file
exists (src lines 44-51). -/
def defaultMemoryJson : Json :=
  .obj [("decisions", .arr []), ("products_created", .arr []),
        ("successful_niches", .arr []), ("failed_niches", .arr []),
        ("total_revenue", .num 0 1), ("learnings", .arr [])]

/-- The default memory as a record. -/
def defaultMemory : MemoryRecord :=
  { decisions := [], products_created := [], successful_niches := [],
    failed_niches := [], total_revenue := .num 0 1, learnings := [] }

/-- Model of `load_memory`: `file` is `none` when `tiger_memory.json` does
not exist and `some text` with its contents otherwise.  When the file
exists its contents go through `json.load`; a parse failure there is an
uncaught `JSONDecodeError`, modelled as `Except.error`. -/
def load_memory (file : Option String) : Except Unit Json :=
  match file with
  | none => .ok defaultMemoryJson
  | some text =>
    match Json.parse text with
    | some j => .ok j
    | none => .error ()

/-- Model of `save_memory`: `json.dump` writes the memory dict to the
file.  The written text is any string whose `json.load` is exactly this
value (that round trip is the serializer's contract). -/
def save_memory (m : MemoryRecord) : Json := serializeMemory m

/-- A trend dict from `search_trends`. -/
structure Candidate where
  keyword : String
  category : String
  search_volume : String
  competition : String
deriving DecidableEq

/-- The static list `search_trends` returns (src lines 62-93). -/
def search_trends : List Candidate :=
  [{ keyword := "AI prompt templates for ChatGPT", category := "AI Tools",
     search_volume := "high", competition := "medium" },
   { keyword := "Notion dashboard templates for productivity",
     category := "Productivity", search_volume := "high",
     competition := "medium" },
   { keyword := "Resume templates ATS-friendly 2025", category := "Career",
     search_volume := "very high", competition := "high" },
   { keyword := "Budget planner guide for beginners", category := "Finance",
     search_volume := "medium", competition := "low" },
   { keyword := "Social media content calendar templates",
     category := "Marketing", search_volume := "high",
     competition := "medium" }]

/-- The fallback dict of the `except` handler in `ai_analyze_opportunity`
(src line 168): note it carries no `reasoning` key. -/
def fallbackAnalysis (keyword : String) : Json :=
  .obj [("decision", .str "monitor"), ("confidence", .num 5 10),
        ("trend", .str keyword)]

/-- Python slicing `x[:k]` is defined for `str` and `list` values;
anything else raises `TypeError`. -/
def sliceOk : Json → Bool
  | .str _ => true
  | .arr _ => true
  | _ => false

/-- The prints at src lines 161-162 run before the parsed dict is
returned: `analysis['decision'].upper()` needs a present string
`decision`, `analysis['confidence']` must be present, and
`analysis.get('reasoning', 'N/A')[:100]` must be sliceable when present.
If any of them raises, the handler returns the fallback dict instead. -/
def printAccessOk (a : Json) : Bool :=
  (match a.getField "decision" with
   | some (.str _) => true
   | _ => false) &&
  (a.getField "confidence").isSome &&
  (match a.getField "reasoning" with
   | none => true
   | some r => sliceOk r)

/-- Model of `ai_analyze_opportunity` (src lines 98-168).  The oracle
transport is the input `oracleReply`: `none` when
`self.ai.messages.create` (or reading the reply text) raises, `some t`
when the reply text is `t`.  Memory short-circuits consult only
`failed_niches` / `successful_niches`.  On the oracle path, the reply is
searched with the greedy regex, the match is given to `json.loads`,
`analysis["trend"]` is set, and any exception up to the return lands in
the handler that returns the fallback dict. -/
def ai_analyze_opportunity (memory : MemoryRecord) (oracleReply : Option String)
    (trend : Candidate) : Json :=
  let keyword := trend.keyword
  if memory.failed_niches.contains keyword then
    .obj [("decision", .str "skip"), ("confidence", .num 0 1),
          ("trend", .str keyword)]
  else if memory.successful_niches.contains keyword then
    .obj [("decision", .str "create"), ("confidence", .num 95 100),
          ("trend", .str keyword),
          ("reasoning", .str "Proven success in our history")]
  else
    match oracleReply with
    | none => fallbackAnalysis keyword
    | some ai_response =>
      match extractGreedy ai_response with
      | none =>
        .obj [("decision", .str "monitor"), ("confidence", .num 5 10),
              ("reasoning", .str (ai_response.take 200)),
              ("trend", .str keyword)]
      | some sub =>
        match Json.parse sub with
        | none => fallbackAnalysis keyword
        | some parsed =>
          let analysis := parsed.setField "trend" (.str keyword)
          if printAccessOk analysis then analysis else fallbackAnalysis keyword

/-- Model of `ai_create_product_content` (src lines 170-229).  The print
at src line 175 reads `product_decision['trend']` before the `try`
begins, so a dict without a `trend` key raises a `KeyError` that escapes
the function (`Except.error`).  Past that access, `genReply` is the
transport outcome of the generation request, and every failure inside
the `try` (transport, regex miss is the explicit `else`, `json.loads`
error, missing `title` in the success print) ends in `None`
(`Except.ok none`). -/
def ai_create_product_content (genReply : Option String)
    (product_decision : Json) : Except Unit (Option Json) :=
  match product_decision.getField "trend" with
  | none => .error ()
  | some _ =>
    match genReply with
    | none => .ok none
    | some ai_response =>
      match extractGreedy ai_response with
      | none => .ok none
      | some sub =>
        match Json.parse sub with
        | none => .ok none
        | some content =>
          match content.getField "title" with
          | none => .ok none
          | some _ => .ok (some content)

/-- Elements Python iterates over for `content.get('sections', [])`: a
list yields its elements, a string its one-character strings, a dict its
keys; numbers, booleans and `None` are not iterable (`TypeError`). -/
def pyIter : Json → Option (List Json)
  | .arr xs => some xs
  | .str s => some (s.toList.map (fun c => Json.str (String.mk [c])))
  | .obj kvs => some (kvs.map (fun kv => Json.str kv.1))
  | _ => none

/-- One pass of the story loop (src lines 300-308): `section['heading']`
must be present (a `KeyError` otherwise, a `TypeError` on a non-dict) and
`section['content']` must be a string for `.split('\n\n')`. -/
def sectionOk (s : Json) : Bool :=
  (s.getField "heading").isSome &&
  (match s.getField "content" with
   | some (.str _) => true
   | _ => false)

/-- Model of `create_pdf_product` (src lines 231-314).  The reportlab
document build is the external Renderer: `render content filename` says
whether `doc.build` succeeds.  Failures — a missing `title`, a malformed
`sections` entry, or a failing build — are uncaught exceptions. -/
def create_pdf_product (render : Json → String → Bool) (content : Json)
    (output_filename : String) : Except Unit String :=
  if (content.getField "title").isNone then .error ()
  else
    match pyIter (content.getFieldD "sections" (.arr [])) with
    | none => .error ()
    | some sections =>
      if sections.all sectionOk then
        if render content output_filename then
          .ok ("tiger_products/" ++ output_filename)
        else .error ()
      else .error ()

/-- Model of `log_decision` (src lines 316-331): build the decision dict
(`analysis["trend"]` and `analysis["decision"]` would be `KeyError`s when
absent, but every dict `ai_analyze_opportunity` returns has them) and
append it to `memory["decisions"]`; `save_memory` then persists. -/
def log_decision (now : String) (analysis : Json) (m : MemoryRecord) :
    Except Unit MemoryRecord :=
  match analysis.getField "trend", analysis.getField "decision" with
  | some tr, some de =>
    let rec1 : DecisionRecord :=
      { timestamp := now, trend := tr, decision := de,
        confidence := analysis.getFieldD "confidence" (.num 5 10),
        reasoning := analysis.getFieldD "reasoning" (.str "No reasoning provided"),
        ai_powered := true,
        estimated_price := analysis.getField "estimated_price_point" }
    .ok { m with decisions := m.decisions ++ [rec1] }
  | _, _ => .error ()

/-- Model of `log_product_creation` (src lines 333-336). -/
def log_product_creation (info : ProductRecord) (m : MemoryRecord) :
    MemoryRecord :=
  { m with products_created := m.products_created ++ [info] }

/-- Python `analysis["decision"] == "create"`: equality with a string is
`False` for every non-string value. -/
def isCreateStr : Json → Bool
  | .str s => s == "create"
  | _ => false

/-- Python `confidence >= 0.75` as `Except`: a fraction `n / d` (with
`d > 0`) passes iff `3 * d ≤ 4 * n`; `True`/`False` compare as 1/0; any
other value raises `TypeError`. -/
def confTest : Json → Except Unit Bool
  | .num n d => .ok (decide (3 * (d : Int) ≤ 4 * n))
  | .bool b => .ok b
  | _ => .error ()

/-- The value of `confTest` on the values where it does not raise. -/
def confGE : Json → Bool
  | .num n d => decide (3 * (d : Int) ≤ 4 * n)
  | .bool b => b
  | _ => false

/-- The creation gate at src line 363:
`analysis["decision"] == "create" and analysis.get("confidence", 0) >= 0.75`.
A missing `decision` key would be a `KeyError`; Python's `and`
short-circuits, so the confidence comparison (which may raise) only runs
when the decision equals "create". -/
def gateCheck (analysis : Json) : Except Unit Bool :=
  match analysis.getField "decision" with
  | none => .error ()
  | some de =>
    if isCreateStr de then confTest (analysis.getFieldD "confidence" (.num 0 1))
    else .ok false

/-- The pure reading of the gate for judgments on which it does not raise:
the decision is the string "create" and the confidence value is at least
3/4 (with `True` as 1 and a missing key as 0). -/
def passesGate (analysis : Json) : Bool :=
  (match analysis.getField "decision" with
   | some de => isCreateStr de
   | none => false) &&
  confGE (analysis.getFieldD "confidence" (.num 0 1))

/-- External collaborators of one cycle: the oracle transport for
evaluation and for generation (`none` models a raised call), the
reportlab build outcome, and the wall clock
(`datetime.now().isoformat()`). -/
structure Env where
  evalReply : Candidate → Option String
  genReply : Json → Option String
  render : Json → String → Bool
  now : String

/-- One iteration of the analysis loop (src lines 359-364): analyze, log
the decision, and collect the judgment when the gate passes.  An
`Except.error` carries the memory as it stood when the exception left the
loop. -/
def analyze_step (env : Env) (m : MemoryRecord) (pts : List Json)
    (trend : Candidate) : Except MemoryRecord (MemoryRecord × List Json) :=
  match log_decision env.now (ai_analyze_opportunity m (env.evalReply trend) trend) m with
  | .error _ => .error m
  | .ok m' =>
    match gateCheck (ai_analyze_opportunity m (env.evalReply trend) trend) with
    | .error _ => .error m'
    | .ok true => .ok (m', pts ++ [ai_analyze_opportunity m (env.evalReply trend) trend])
    | .ok false => .ok (m', pts)

/-- The analysis loop over the capped candidate list. -/
def analyze_loop (env : Env) : List Candidate → MemoryRecord → List Json →
    Except MemoryRecord (MemoryRecord × List Json)
  | [], m, pts => .ok (m, pts)
  | t :: ts, m, pts =>
    match analyze_step env m pts t with
    | .error e => .error e
    | .ok (m', pts') => analyze_loop env ts m' pts'

/-- The file name built at src line 378:
`f"{decision['trend'][:50].replace(' ', '_').replace('/', '_')}.pdf"`. -/
def product_filename (t : String) : String :=
  ((t.take 50).replace " " "_").replace "/" "_" ++ ".pdf"

/-- The `product_info` dict built at src lines 382-390. -/
def product_info (env : Env) (t : String) (content decision : Json)
    (filepath : String) : ProductRecord :=
  { timestamp := env.now, trend := .str t, filename := product_filename t,
    filepath := filepath,
    title := content.getFieldD "title" .null,
    estimated_price := decision.getFieldD "estimated_price_point" (.str "$9.99"),
    status := "created" }

/-- One iteration of the product-creation loop (src lines 370-395): null
content is skipped and the loop continues; otherwise the PDF is rendered
and only after a successful render is the product record appended.  A
rendering exception propagates, carrying the memory as it stood.  (The
`trend` key is always the candidate's keyword string in the dicts this
loop receives; a missing or non-string value would raise at the slicing
in the file name.) -/
def creation_step (env : Env) (m : MemoryRecord) (decision : Json) :
    Except MemoryRecord MemoryRecord :=
  match ai_create_product_content (env.genReply decision) decision with
  | .error _ => .error m
  | .ok none => .ok m
  | .ok (some content) =>
    match decision.getField "trend" with
    | some (.str t) =>
      match create_pdf_product env.render content (product_filename t) with
      | .error _ => .error m
      | .ok filepath =>
        .ok (log_product_creation (product_info env t content decision filepath) m)
    | _ => .error m

/-- The product-creation loop over the gated judgments, in decision
order. -/
def creation_loop (env : Env) : List Json → MemoryRecord →
    Except MemoryRecord MemoryRecord
  | [], m => .ok m
  | d :: ds, m =>
    match creation_step env m d with
    | .error e => .error e
    | .ok m' => creation_loop env ds m'

/-- Model of `run_cycle` (src lines 338-411): analyze the first two
trends (the fan-out cap), logging every decision, then run the Creation
Pipeline over the gated judgments.  The result is the final memory; an
`Except.error` carries the memory at the uncaught exception. -/
def run_cycle (env : Env) (m : MemoryRecord) :
    Except MemoryRecord MemoryRecord :=
  let trends := search_trends
  if trends.isEmpty then .ok m
  else
    match analyze_loop env (trends.take 2) m [] with
    | .error e => .error e
    | .ok (m1, products_to_create) => creation_loop env products_to_create m1

/-- The per-candidate judgments of one cycle, computed against the
starting memory (the loop's own writes touch only `decisions`, which the
Decision Engine does not read). -/
def cycleJudgments (env : Env) (m : MemoryRecord) : List Json :=
  (search_trends.take 2).map
    (fun t => ai_analyze_opportunity m (env.evalReply t) t)

/-- The memory a cycle left behind, whether it completed or raised. -/
def cycleMemory : Except MemoryRecord MemoryRecord → MemoryRecord
  | .ok m => m
  | .error m => m

/-- Memory `m'` extends `m` by appends only: the niche label sets, the
revenue accumulator and the learnings are unchanged, and `decisions` and
`products_created` only grow at the end. -/
def MemExtends (m' m : MemoryRecord) : Prop :=
  m'.successful_niches = m.successful_niches ∧
  m'.failed_niches = m.failed_niches ∧
  m'.total_revenue = m.total_revenue ∧
  m'.learnings = m.learnings ∧
  (∃ ds, m'.decisions = m.decisions ++ ds) ∧
  (∃ ps, m'.products_created = m.products_created ++ ps)

/-- The fourth entry of `search_trends`, used as a concrete candidate. -/
def budgetCandidate : Candidate :=
  { keyword := "Budget planner guide for beginners", category := "Finance",
    search_volume := "medium", competition := "low" }

/-- The first entry of `search_trends` (inside the fan-out cap of two). -/
def aiPromptCandidate : Candidate :=
  { keyword := "AI prompt templates for ChatGPT", category := "AI Tools",
    search_volume := "high", competition := "medium" }

/-- A concrete environment: every oracle call raises, rendering succeeds. -/
def sampleEnv : Env :=
  { evalReply := fun _ => none, genReply := fun _ => none,
    render := fun _ _ => true, now := "2025-01-01T00:00:00" }

/-- The decision record `log_decision` builds from the oracle-failure
fallback dict for keyword `kw`. -/
def monitorDecisionRecord (kw now : String) : DecisionRecord :=
  { timestamp := now, trend := .str kw, decision := .str "monitor",
    confidence := .num 5 10, reasoning := .str "No reasoning provided",
    ai_powered := true, estimated_price := none }

/-- The decision record `log_decision` builds from the known-success
short-circuit dict for keyword `kw`. -/
def successDecisionRecord (kw now : String) : DecisionRecord :=
  { timestamp := now, trend := .str kw, decision := .str "create",
    confidence := .num 95 100,
    reasoning := .str "Proven success in our history",
    ai_powered := true, estimated_price := none }

/-- The memory after one all-fallback cycle on empty memory: the two
capped candidates were each logged with the monitor fallback. -/
def c6LoggedMemory : MemoryRecord :=
  { defaultMemory with decisions :=
      [monitorDecisionRecord "AI prompt templates for ChatGPT"
         "2025-01-01T00:00:00",
       monitorDecisionRecord "Notion dashboard templates for productivity"
         "2025-01-01T00:00:00"] }

/-- A concrete prior memory with one persisted decision and one
successful niche. -/
def c7SampleMemory : MemoryRecord :=
  { defaultMemory with
    decisions := [{ timestamp := "2025-01-01T00:00:00", trend := Json.str "x",
                    decision := Json.str "skip", confidence := Json.num 0 1,
                    reasoning := Json.str "No reasoning provided",
                    ai_powered := true, estimated_price := none }],
    successful_niches := ["x"] }

/-- A gated judgment dict, as the gate receives it. -/
def c8Decision : Json :=
  Json.obj [("decision", .str "create"), ("confidence", .num 9 10),
            ("trend", .str "kw")]

/-- A minimal generated-content dict. -/
def c8Content : Json := Json.obj [("title", .str "T")]

/-- An environment whose generation oracle answers with a title-only
payload and whose renderer fails. -/
def c8FailEnv : Env :=
  { evalReply := fun _ => none,
    genReply := fun _ => some "\x7b\"title\": \"T\"\x7d",
    render := fun _ _ => false, now := "2025-01-01T00:00:00" }

/-- A memory whose successful niches already hold the first trend's
keyword. -/
def c9Memory : MemoryRecord :=
  { defaultMemory with successful_niches := ["AI prompt templates for ChatGPT"] }

/-- The memory `c9Memory` after the analysis loop of one cycle. -/
def c9CycleMemory : MemoryRecord :=
  { c9Memory with decisions :=
      [successDecisionRecord "AI prompt templates for ChatGPT"
         "2025-01-01T00:00:00",
       monitorDecisionRecord "Notion dashboard templates for productivity"
         "2025-01-01T00:00:00"] }

/-- An oracle reply whose greedy brace span (first `\x7b` to last `\x7d`)
is unparsable even though its first balanced brace region parses. -/
def c5GreedyReply : String :=
  "\x7b\"decision\": \"create\", \"confidence\": 0.9\x7d \x7d"

/-- An oracle reply with one balanced payload embedded in free text. -/
def c5ParsedReply : String :=
  "note \x7b\"decision\": \"create\", \"confidence\": 0.8, \"title\": \"The Guide\"\x7d"

set_option maxRecDepth 65536

theorem memExtends_refl (m : MemoryRecord) : MemExtends m m :=
  ⟨rfl, rfl, rfl, rfl, ⟨[], by simp⟩, ⟨[], by simp⟩⟩

theorem memExtends_trans {m₁ m₂ m₃ : MemoryRecord}
    (h₁ : MemExtends m₁ m₂) (h₂ : MemExtends m₂ m₃) : MemExtends m₁ m₃ := by
  obtain ⟨a1, b1, c1, d1, ⟨ds1, e1⟩, ⟨ps1, f1⟩⟩ := h₁
  obtain ⟨a2, b2, c2, d2, ⟨ds2, e2⟩, ⟨ps2, f2⟩⟩ := h₂
  exact ⟨a1.trans a2, b1.trans b2, c1.trans c2, d1.trans d2,
         ⟨ds2 ++ ds1, by rw [e1, e2, List.append_assoc]⟩,
         ⟨ps2 ++ ps1, by rw [f1, f2, List.append_assoc]⟩⟩

theorem parseDecision_serializeDecision (r : DecisionRecord) :
    parseDecision (serializeDecision r) = some r := by
  obtain ⟨ts, tr, de, co, re, ap, ep⟩ := r
  cases ep <;> rfl

theorem parseProduct_serializeProduct (r : ProductRecord) :
    parseProduct (serializeProduct r) = some r := rfl

theorem decodeList_map_inverse {α : Type} {g : Json → Option α} {f : α → Json}
    (h : ∀ a, g (f a) = some a) (l : List α) :
    decodeList g (l.map f) = some l := by
  induction l with
  | nil => rfl
  | cons a l ih => simp [decodeList, h, ih]

theorem parseMemory_serializeMemory (m : MemoryRecord) :
    parseMemory (serializeMemory m) = some m := by
  obtain ⟨ds, ps, sn, fn, tr, le⟩ := m
  have hd := decodeList_map_inverse parseDecision_serializeDecision ds
  have hp := decodeList_map_inverse parseProduct_serializeProduct ps
  have hs := decodeList_map_inverse
    (fun s => (rfl : decodeString (Json.str s) = some s)) sn
  have hf := decodeList_map_inverse
    (fun s => (rfl : decodeString (Json.str s) = some s)) fn
  show (match decodeList parseDecision (List.map serializeDecision ds),
              decodeList parseProduct (List.map serializeProduct ps),
              decodeList decodeString (List.map Json.str sn),
              decodeList decodeString (List.map Json.str fn) with
        | some a, some b, some c, some d =>
          some (MemoryRecord.mk a b c d tr le)
        | _, _, _, _ => none) =
    some (MemoryRecord.mk ds ps sn fn tr le)
  rw [hd, hp, hs, hf]

theorem log_decision_frame {now : String} {a : Json} {m m' : MemoryRecord}
    (h : log_decision now a m = .ok m') :
    ∃ r, m' = { m with decisions := m.decisions ++ [r] } := by
  unfold log_decision at h
  split at h
  · cases h
    exact ⟨_, rfl⟩
  · nomatch h

theorem ai_analyze_congr {m₁ m₂ : MemoryRecord} (o : Option String)
    (c : Candidate) (hf : m₁.failed_niches = m₂.failed_niches)
    (hs : m₁.successful_niches = m₂.successful_niches) :
    ai_analyze_opportunity m₁ o c = ai_analyze_opportunity m₂ o c := by
  unfold ai_analyze_opportunity
  rw [hf, hs]

theorem confTest_ok_eq {j : Json} {b : Bool} (h : confTest j = .ok b) :
    b = confGE j := by
  cases j <;> first | (cases h; rfl) | nomatch h

theorem gateCheck_ok_eq {a : Json} {b : Bool} (h : gateCheck a = .ok b) :
    b = passesGate a := by
  unfold gateCheck at h
  unfold passesGate
  rcases hd : a.getField "decision" with _ | de
  · rw [hd] at h
    nomatch h
  · rw [hd] at h
    dsimp only at h ⊢
    by_cases hic : isCreateStr de = true
    · rw [if_pos hic] at h
      rw [hic, Bool.true_and]
      exact confTest_ok_eq h
    · rw [if_neg hic] at h
      cases h
      simp [Bool.not_eq_true] at hic
      rw [hic, Bool.false_and]

theorem analyze_step_ok {env : Env} {m : MemoryRecord} {pts : List Json}
    {t : Candidate} {m' : MemoryRecord} {pts' : List Json}
    (h : analyze_step env m pts t = .ok (m', pts')) :
    (∃ r, m' = { m with decisions := m.decisions ++ [r] }) ∧
    pts' = pts ++ (if passesGate (ai_analyze_opportunity m (env.evalReply t) t)
                   then [ai_analyze_opportunity m (env.evalReply t) t] else []) := by
  unfold analyze_step at h
  cases hld : log_decision env.now (ai_analyze_opportunity m (env.evalReply t) t) m with
  | error e => rw [hld] at h; nomatch h
  | ok m1 =>
    rw [hld] at h
    cases hgc : gateCheck (ai_analyze_opportunity m (env.evalReply t) t) with
    | error e => rw [hgc] at h; nomatch h
    | ok b =>
      rw [hgc] at h
      have hb := gateCheck_ok_eq hgc
      obtain ⟨r, hr⟩ := log_decision_frame hld
      cases b with
      | true =>
        cases h
        exact ⟨⟨r, hr⟩, by rw [← hb]; simp⟩
      | false =>
        cases h
        exact ⟨⟨r, hr⟩, by rw [← hb]; simp⟩

theorem analyze_step_err {env : Env} {m : MemoryRecord} {pts : List Json}
    {t : Candidate} {e : MemoryRecord}
    (h : analyze_step env m pts t = .error e) : MemExtends e m := by
  unfold analyze_step at h
  cases hld : log_decision env.now (ai_analyze_opportunity m (env.evalReply t) t) m with
  | error e' =>
    rw [hld] at h
    cases h
    exact memExtends_refl m
  | ok m1 =>
    rw [hld] at h
    cases hgc : gateCheck (ai_analyze_opportunity m (env.evalReply t) t) with
    | error e' =>
      rw [hgc] at h
      cases h
      obtain ⟨r, hr⟩ := log_decision_frame hld
      subst hr
      exact ⟨rfl, rfl, rfl, rfl, ⟨[r], rfl⟩, ⟨[], by simp⟩⟩
    | ok b =>
      rw [hgc] at h
      cases b <;> nomatch h

theorem analyze_loop_ok {env : Env} (ts : List Candidate) :
    ∀ (m : MemoryRecord) (acc : List Json) (m' : MemoryRecord) (pts : List Json),
    analyze_loop env ts m acc = .ok (m', pts) →
    pts = acc ++ (ts.map
      (fun t => ai_analyze_opportunity m (env.evalReply t) t)).filter passesGate ∧
    m'.failed_niches = m.failed_niches ∧
    m'.successful_niches = m.successful_niches ∧
    m'.products_created = m.products_created ∧
    m'.total_revenue = m.total_revenue ∧
    m'.learnings = m.learnings ∧
    ∃ ds, m'.decisions = m.decisions ++ ds := by
  induction ts with
  | nil =>
    intro m acc m' pts h
    cases h
    exact ⟨by simp, rfl, rfl, rfl, rfl, rfl, ⟨[], by simp⟩⟩
  | cons t ts ih =>
    intro m acc m' pts h
    unfold analyze_loop at h
    cases hst : analyze_step env m acc t with
    | error e => rw [hst] at h; nomatch h
    | ok p =>
      obtain ⟨m1, acc1⟩ := p
      rw [hst] at h
      obtain ⟨⟨r, hm1⟩, hacc1⟩ := analyze_step_ok hst
      obtain ⟨hpts, h2, h3, h4, h5, h6, ⟨ds, h7⟩⟩ := ih m1 acc1 m' pts h
      subst hm1
      have hfun : (fun t' => ai_analyze_opportunity
            { m with decisions := m.decisions ++ [r] } (env.evalReply t') t')
          = (fun t' => ai_analyze_opportunity m (env.evalReply t') t') :=
        funext fun t' => ai_analyze_congr _ _ rfl rfl
      refine ⟨?_, h2, h3, h4, h5, h6, ⟨[r] ++ ds, by rw [h7]; simp⟩⟩
      rw [hpts, hfun, hacc1]
      rcases hpg : passesGate (ai_analyze_opportunity m (env.evalReply t) t) <;>
        simp [hpg, List.filter_cons]

theorem analyze_loop_err {env : Env} (ts : List Candidate) :
    ∀ (m : MemoryRecord) (acc : List Json) (e : MemoryRecord),
    analyze_loop env ts m acc = .error e → MemExtends e m := by
  induction ts with
  | nil => intro m acc e h; nomatch h
  | cons t ts ih =>
    intro m acc e h
    unfold analyze_loop at h
    cases hst : analyze_step env m acc t with
    | error e' =>
      rw [hst] at h
      cases h
      exact analyze_step_err hst
    | ok p =>
      obtain ⟨m1, acc1⟩ := p
      rw [hst] at h
      obtain ⟨⟨r, hm1⟩, _⟩ := analyze_step_ok hst
      have he := ih m1 acc1 e h
      subst hm1
      exact memExtends_trans he ⟨rfl, rfl, rfl, rfl, ⟨[r], rfl⟩, ⟨[], by simp⟩⟩

theorem creation_step_ok_extends {env : Env} {m : MemoryRecord} {d : Json}
    {m' : MemoryRecord} (h : creation_step env m d = .ok m') :
    MemExtends m' m := by
  unfold creation_step at h
  split at h
  · nomatch h
  · cases h
    exact memExtends_refl m
  · split at h
    · split at h
      · nomatch h
      · cases h
        exact ⟨rfl, rfl, rfl, rfl, ⟨[], by simp [log_product_creation]⟩,
               ⟨[_], rfl⟩⟩
    · nomatch h

theorem creation_step_err_eq {env : Env} {m : MemoryRecord} {d : Json}
    {e : MemoryRecord} (h : creation_step env m d = .error e) : e = m := by
  unfold creation_step at h
  split at h
  · cases h
    rfl
  · nomatch h
  · split at h
    · split at h
      · cases h
        rfl
      · nomatch h
    · cases h
      rfl

theorem creation_loop_extends {env : Env} (ds : List Json) :
    ∀ m : MemoryRecord, MemExtends (cycleMemory (creation_loop env ds m)) m := by
  induction ds with
  | nil => intro m; exact memExtends_refl m
  | cons d ds ih =>
    intro m
    cases hst : creation_step env m d with
    | error e =>
      have hl : creation_loop env (d :: ds) m = .error e := by
        show (match creation_step env m d with
              | .error e => (.error e : Except MemoryRecord MemoryRecord)
              | .ok m' => creation_loop env ds m') = .error e
        rw [hst]
      rw [hl, creation_step_err_eq hst]
      exact memExtends_refl m
    | ok m1 =>
      have hl : creation_loop env (d :: ds) m = creation_loop env ds m1 := by
        show (match creation_step env m d with
              | .error e => (.error e : Except MemoryRecord MemoryRecord)
              | .ok m' => creation_loop env ds m') = creation_loop env ds m1
        rw [hst]
      rw [hl]
      exact memExtends_trans (ih m1) (creation_step_ok_extends hst)

theorem run_cycle_unfold (env : Env) (m : MemoryRecord) :
    run_cycle env m =
      match analyze_loop env (search_trends.take 2) m [] with
      | .error e => .error e
      | .ok (m1, pts) => creation_loop env pts m1 := rfl

theorem run_cycle_extends (env : Env) (m : MemoryRecord) :
    MemExtends (cycleMemory (run_cycle env m)) m := by
  rw [run_cycle_unfold]
  cases hal : analyze_loop env (search_trends.take 2) m [] with
  | error e => exact analyze_loop_err _ _ _ _ hal
  | ok p =>
    obtain ⟨m1, pts⟩ := p
    obtain ⟨_, h2, h3, h4, h5, h6, ⟨ds, h7⟩⟩ := analyze_loop_ok _ _ _ _ _ hal
    exact memExtends_trans (creation_loop_extends pts m1)
      ⟨h3, h2, h5, h6, ⟨ds, h7⟩, ⟨[], by simp [h4]⟩⟩

/-- C1 (amended): for every candidate whose keyword is in `failedNiches`,
the Decision Engine returns the dict with decision "skip", confidence 0
and the trend keyword — and carries no `reasoning` key at all (the claim's
"previously failed" text is only printed, not returned).  The result is
the same for every oracle outcome `o`, so no oracle call influences it. -/
theorem C1_known_failure_skip (m : MemoryRecord) (o : Option String)
    (c : Candidate) (h : c.keyword ∈ m.failed_niches) :
    ai_analyze_opportunity m o c =
      Json.obj [("decision", Json.str "skip"), ("confidence", Json.num 0 1),
                ("trend", Json.str c.keyword)] := by
  simp [ai_analyze_opportunity, h]

/-- C1 (witness): the skip short-circuit evaluated on a concrete failed
niche. -/
theorem C1_witness :
    ai_analyze_opportunity
        { defaultMemory with failed_niches := ["Budget planner guide for beginners"] }
        none budgetCandidate =
      Json.obj [("decision", Json.str "skip"), ("confidence", Json.num 0 1),
                ("trend", Json.str "Budget planner guide for beginners")] :=
  C1_known_failure_skip _ _ _ (by decide)

/-- C1 (counterexample): with the candidate's keyword in `failedNiches`,
the returned judgment has no `reasoning` key, so its reasoning is not the
text "previously failed" the claim states. -/
theorem C1_counterexample :
    (ai_analyze_opportunity
        { defaultMemory with failed_niches := ["Budget planner guide for beginners"] }
        none budgetCandidate).getField "reasoning" = none ∧
    ¬ (ai_analyze_opportunity
        { defaultMemory with failed_niches := ["Budget planner guide for beginners"] }
        none budgetCandidate).getField "reasoning" =
      some (Json.str "previously failed") :=
  ⟨rfl, fun h => nomatch h⟩

/-- C2: for every candidate whose keyword is in `successfulNiches` and not
in `failedNiches`, the Decision Engine returns the dict with decision
"create" and confidence 0.95 (and the "Proven success in our history"
reasoning).  The result is the same for every oracle outcome `o`, so no
oracle call influences it. -/
theorem C2_known_success_create (m : MemoryRecord) (o : Option String)
    (c : Candidate) (hf : c.keyword ∉ m.failed_niches)
    (hs : c.keyword ∈ m.successful_niches) :
    ai_analyze_opportunity m o c =
      Json.obj [("decision", Json.str "create"), ("confidence", Json.num 95 100),
                ("trend", Json.str c.keyword),
                ("reasoning", Json.str "Proven success in our history")] := by
  simp [ai_analyze_opportunity, hf, hs]

/-- C2 (witness): the create short-circuit evaluated on a concrete
successful niche. -/
theorem C2_witness :
    ai_analyze_opportunity
        { defaultMemory with successful_niches := ["Budget planner guide for beginners"] }
        none budgetCandidate =
      Json.obj [("decision", Json.str "create"), ("confidence", Json.num 95 100),
                ("trend", Json.str "Budget planner guide for beginners"),
                ("reasoning", Json.str "Proven success in our history")] :=
  C2_known_success_create _ _ _ (by decide) (by decide)

/-- C3 (amended): no oracle-layer failure escapes either operation, but
the fallback judgments differ from the claim: a transport failure (and a
reply whose brace span fails to parse) returns the monitor/0.5 dict with
no `reasoning` key; only a reply with no brace-delimited region at all
gets `reasoning` set, to the reply's first 200 characters.
`generateContent` returns null in every such case for the decision dicts
the pipeline hands it — those carrying a `trend` key (a dict without one
raises a `KeyError` at the pre-`try` print before any oracle call, which
is not an oracle-layer failure). -/
theorem C3_oracle_failure_fallback (m : MemoryRecord) (c : Candidate)
    (hf : c.keyword ∉ m.failed_niches)
    (hs : c.keyword ∉ m.successful_niches) :
    ai_analyze_opportunity m none c = fallbackAnalysis c.keyword ∧
    (∀ r, extractGreedy r = none →
      ai_analyze_opportunity m (some r) c =
        Json.obj [("decision", Json.str "monitor"), ("confidence", Json.num 5 10),
                  ("reasoning", Json.str (r.take 200)),
                  ("trend", Json.str c.keyword)]) ∧
    (∀ r s, extractGreedy r = some s → Json.parse s = none →
      ai_analyze_opportunity m (some r) c = fallbackAnalysis c.keyword) ∧
    (∀ d, (d.getField "trend").isSome = true →
      ai_create_product_content none d = .ok none) ∧
    (∀ d r, (d.getField "trend").isSome = true → extractGreedy r = none →
      ai_create_product_content (some r) d = .ok none) ∧
    (∀ d r s, (d.getField "trend").isSome = true → extractGreedy r = some s →
      Json.parse s = none → ai_create_product_content (some r) d = .ok none) := by
  refine ⟨?_, ?_, ?_, ?_, ?_, ?_⟩
  · simp [ai_analyze_opportunity, hf, hs]
  · intro r hr
    simp [ai_analyze_opportunity, hf, hs, hr]
  · intro r s hr hp
    simp [ai_analyze_opportunity, hf, hs, hr, hp]
  · intro d ht
    obtain ⟨x, hx⟩ := Option.isSome_iff_exists.mp ht
    simp [ai_create_product_content, hx]
  · intro d r ht hr
    obtain ⟨x, hx⟩ := Option.isSome_iff_exists.mp ht
    simp [ai_create_product_content, hx, hr]
  · intro d r s ht hr hp
    obtain ⟨x, hx⟩ := Option.isSome_iff_exists.mp ht
    simp [ai_create_product_content, hx, hr, hp]

/-- C3 (witness): the transport-failure and no-payload fallbacks, and a
null generation, on concrete inputs. -/
theorem C3_witness :
    ai_analyze_opportunity defaultMemory none budgetCandidate =
      fallbackAnalysis "Budget planner guide for beginners" ∧
    ai_analyze_opportunity defaultMemory (some "no payload here") budgetCandidate =
      Json.obj [("decision", Json.str "monitor"), ("confidence", Json.num 5 10),
                ("reasoning", Json.str "no payload here"),
                ("trend", Json.str "Budget planner guide for beginners")] ∧
    ai_create_product_content none (Json.obj [("trend", Json.str "x")]) =
      .ok none :=
  have h := C3_oracle_failure_fallback defaultMemory budgetCandidate
    (by decide) (by decide)
  ⟨h.1, h.2.1 "no payload here" rfl,
   h.2.2.2.1 (Json.obj [("trend", Json.str "x")]) rfl⟩

/-- C3 (counterexample): on a transport failure the fallback judgment is
monitor/0.5 with the trend — and no `reasoning` key, contradicting the
claimed `reasoning: fallback-diagnostic-text` field. -/
theorem C3_counterexample :
    ai_analyze_opportunity defaultMemory none budgetCandidate =
      Json.obj [("decision", Json.str "monitor"), ("confidence", Json.num 5 10),
                ("trend", Json.str "Budget planner guide for beginners")] ∧
    (ai_analyze_opportunity defaultMemory none budgetCandidate).getField
        "reasoning" = none :=
  ⟨rfl, rfl⟩

/-- C4 (amended): `load_memory` returns the empty default record when no
state file exists (and the default dict decodes to the empty default
record), but an existing state file that does not parse makes `json.load`
raise and the exception propagates — the cycle aborts instead of falling
back to defaults. -/
theorem C4_load_memory (t : String) (h : Json.parse t = none) :
    load_memory none = .ok defaultMemoryJson ∧
    parseMemory defaultMemoryJson = some defaultMemory ∧
    load_memory (some t) = .error () := by
  refine ⟨rfl, rfl, ?_⟩
  simp [load_memory, h]

/-- C4 (witness): the default on a missing file, and the raise on a
concrete corrupt file. -/
theorem C4_witness :
    load_memory none = .ok defaultMemoryJson ∧
    parseMemory defaultMemoryJson = some defaultMemory ∧
    load_memory (some "garbage ^^ state") = .error () :=
  C4_load_memory "garbage ^^ state" rfl

/-- C4 (counterexample): a state file holding the unparsable text
"corrupt memory state" makes `load_memory` raise (`Except.error`) instead
of returning the default record as the claim states. -/
theorem C4_counterexample :
    load_memory (some "corrupt memory state") = .error () := rfl

/-- C5 (amended): both operations extract the payload as the greedy regex
span — from the first opening brace to the last closing brace of the
whole reply — and parse that span; a successfully parsed span is adopted
verbatim (with `trend` set, and subject to the success-path accesses). -/
theorem C5_greedy_extraction (m : MemoryRecord) (c : Candidate) (d : Json)
    (r sub : String) (j : Json)
    (hf : c.keyword ∉ m.failed_niches) (hs : c.keyword ∉ m.successful_niches)
    (hg : extractGreedy r = some sub) (hj : Json.parse sub = some j)
    (hpr : printAccessOk (j.setField "trend" (Json.str c.keyword)) = true)
    (hd : (d.getField "trend").isSome = true)
    (ht : (j.getField "title").isSome = true) :
    ai_analyze_opportunity m (some r) c = j.setField "trend" (Json.str c.keyword) ∧
    ai_create_product_content (some r) d = .ok (some j) := by
  constructor
  · simp [ai_analyze_opportunity, hf, hs, hg, hj, hpr]
  · obtain ⟨x, hx⟩ := Option.isSome_iff_exists.mp hd
    obtain ⟨y, hy⟩ := Option.isSome_iff_exists.mp ht
    simp [ai_create_product_content, hx, hg, hj, hy]

/-- C5 (witness): a reply with one balanced payload in free text is
adopted by both operations via the greedy span (which coincides with the
balanced region here). -/
theorem C5_witness :
    ai_analyze_opportunity defaultMemory (some c5ParsedReply) budgetCandidate =
      Json.obj [("decision", Json.str "create"), ("confidence", Json.num 8 10),
                ("title", Json.str "The Guide"),
                ("trend", Json.str "Budget planner guide for beginners")] ∧
    ai_create_product_content (some c5ParsedReply)
        (Json.obj [("trend", Json.str "x")]) =
      .ok (some (Json.obj [("decision", Json.str "create"),
                           ("confidence", Json.num 8 10),
                           ("title", Json.str "The Guide")])) :=
  C5_greedy_extraction defaultMemory budgetCandidate
    (Json.obj [("trend", Json.str "x")]) c5ParsedReply
    "\x7b\"decision\": \"create\", \"confidence\": 0.8, \"title\": \"The Guide\"\x7d"
    (Json.obj [("decision", Json.str "create"), ("confidence", Json.num 8 10),
               ("title", Json.str "The Guide")])
    (by decide) (by decide) rfl rfl rfl rfl rfl

/-- C5 (counterexample): on the reply `c5GreedyReply` the first balanced
brace region parses to a create/0.9 judgment, but the code's greedy span
(first `\x7b` to last `\x7d`) is unparsable, so `evaluate` returns the
monitor/0.5 fallback instead of the balanced payload — the code does not
implement the claimed first-balanced-region rule.  The last two conjuncts
show the divergence is behavioral: the balanced payload would pass the
creation gate, the fallback does not. -/
theorem C5_counterexample :
    (specExtractFirstBalanced c5GreedyReply).bind Json.parse =
      some (Json.obj [("decision", Json.str "create"),
                      ("confidence", Json.num 9 10)]) ∧
    ai_analyze_opportunity defaultMemory (some c5GreedyReply) budgetCandidate =
      fallbackAnalysis "Budget planner guide for beginners" ∧
    passesGate ((Json.obj [("decision", Json.str "create"),
                           ("confidence", Json.num 9 10)]).setField "trend"
                  (Json.str "Budget planner guide for beginners")) = true ∧
    passesGate (fallbackAnalysis "Budget planner guide for beginners") = false :=
  ⟨rfl, rfl, rfl, rfl⟩

/-- C6: the judgments handed to the Creation Pipeline are exactly those of
the cycle's per-candidate judgments with decision "create" and confidence
at least the 0.75 gate; in particular every selected judgment passes the
gate, and the cycle continues into the creation loop on exactly that
list. -/
theorem C6_confidence_gate (env : Env) (m m1 : MemoryRecord) (pts : List Json)
    (h : analyze_loop env (search_trends.take 2) m [] = .ok (m1, pts)) :
    pts = (cycleJudgments env m).filter passesGate ∧
    (∀ a ∈ pts, passesGate a = true) ∧
    run_cycle env m = creation_loop env pts m1 := by
  obtain ⟨hpts, _⟩ := analyze_loop_ok _ _ _ _ _ h
  refine ⟨by simpa [cycleJudgments] using hpts, ?_, ?_⟩
  · intro a ha
    rw [hpts] at ha
    simp only [List.nil_append] at ha
    exact (List.mem_filter.mp ha).2
  · rw [run_cycle_unfold, h]

/-- C6 (witness): an all-fallback cycle on empty memory selects no
judgment (no fallback passes the gate) and hands the empty list to the
creation loop. -/
theorem C6_witness :
    ([] : List Json) = (cycleJudgments sampleEnv defaultMemory).filter passesGate ∧
    run_cycle sampleEnv defaultMemory = creation_loop sampleEnv [] c6LoggedMemory :=
  have h := C6_confidence_gate sampleEnv defaultMemory c6LoggedMemory [] rfl
  ⟨h.1, h.2.2⟩

/-- C7: saving a memory record and then loading yields the record
field-for-field: `json.dump` writes a text whose parse is the serialized
dict (the dump/load round trip at the value level), `load_memory` returns
that dict unchanged, and decoding it recovers every field of the original
record. -/
theorem C7_save_load_roundtrip (m : MemoryRecord) (t : String)
    (h : Json.parse t = some (save_memory m)) :
    load_memory (some t) = .ok (serializeMemory m) ∧
    parseMemory (serializeMemory m) = some m := by
  constructor
  · simp [load_memory, h, save_memory]
  · exact parseMemory_serializeMemory m

/-- C7 (witness): a concrete dump text for a memory with one decision and
one successful niche parses back and decodes to exactly that record. -/
theorem C7_witness :
    load_memory (some "\x7b\"decisions\": [\x7b\"timestamp\": \"2025-01-01T00:00:00\", \"trend\": \"x\", \"decision\": \"skip\", \"confidence\": 0, \"reasoning\": \"No reasoning provided\", \"ai_powered\": true\x7d], \"products_created\": [], \"successful_niches\": [\"x\"], \"failed_niches\": [], \"total_revenue\": 0, \"learnings\": []\x7d") =
      .ok (serializeMemory c7SampleMemory) ∧
    parseMemory (serializeMemory c7SampleMemory) = some c7SampleMemory :=
  C7_save_load_roundtrip c7SampleMemory _ rfl

/-- C8: per gated judgment, a null generation records nothing and the
loop continues with the remaining items; generated content is rendered
and the product record is appended only when the render returned
successfully (with the rendered path); a renderer failure propagates out
with no product record for the failed item, and through `run_cycle`. -/
theorem C8_renderer_failure_propagates (env : Env) (m : MemoryRecord)
    (d : Json) (ds : List Json) :
    (ai_create_product_content (env.genReply d) d = .ok none →
      creation_loop env (d :: ds) m = creation_loop env ds m) ∧
    (∀ content t, ai_create_product_content (env.genReply d) d = .ok (some content) →
      d.getField "trend" = some (Json.str t) →
      (create_pdf_product env.render content (product_filename t) = .error () →
        creation_loop env (d :: ds) m = .error m) ∧
      (∀ fp, create_pdf_product env.render content (product_filename t) = .ok fp →
        creation_loop env (d :: ds) m =
          creation_loop env ds
            { m with products_created := m.products_created ++
                [product_info env t content d fp] })) ∧
    (∀ content fn fp, create_pdf_product env.render content fn = .ok fp →
      env.render content fn = true ∧ fp = "tiger_products/" ++ fn) ∧
    (∀ m1 pts e, analyze_loop env (search_trends.take 2) m [] = .ok (m1, pts) →
      creation_loop env pts m1 = .error e → run_cycle env m = .error e) := by
  refine ⟨?_, ?_, ?_, ?_⟩
  · intro hnull
    show (match creation_step env m d with
          | .error e => (.error e : Except MemoryRecord MemoryRecord)
          | .ok m' => creation_loop env ds m') = creation_loop env ds m
    unfold creation_step
    rw [hnull]
  · intro content t hsome htrend
    constructor
    · intro herr
      show (match creation_step env m d with
            | .error e => (.error e : Except MemoryRecord MemoryRecord)
            | .ok m' => creation_loop env ds m') = .error m
      unfold creation_step
      rw [hsome, htrend]
      dsimp only
      rw [herr]
    · intro fp hok
      show (match creation_step env m d with
            | .error e => (.error e : Except MemoryRecord MemoryRecord)
            | .ok m' => creation_loop env ds m') =
        creation_loop env ds
          { m with products_created := m.products_created ++
              [product_info env t content d fp] }
      unfold creation_step
      rw [hsome, htrend]
      dsimp only
      rw [hok]
      rfl
  · intro content fn fp hok
    unfold create_pdf_product at hok
    split at hok
    · nomatch hok
    · split at hok
      · nomatch hok
      · split at hok
        · split at hok
          · cases hok
            rename_i hrender
            exact ⟨hrender, rfl⟩
          · nomatch hok
        · nomatch hok
  · intro m1 pts e hal hcl
    rw [run_cycle_unfold, hal]
    exact hcl

/-- C8 (witness): with a failing renderer the cycle raises with no
product recorded; with a null generation the loop just moves on. -/
theorem C8_witness :
    creation_loop c8FailEnv [c8Decision] defaultMemory = .error defaultMemory ∧
    creation_loop sampleEnv [c8Decision] defaultMemory =
      creation_loop sampleEnv [] defaultMemory :=
  ⟨((C8_renderer_failure_propagates c8FailEnv defaultMemory c8Decision []).2.1
      c8Content "kw" rfl rfl).1 rfl,
   (C8_renderer_failure_propagates sampleEnv defaultMemory c8Decision []).1 rfl⟩

/-- C9: a successful-niche candidate within the fan-out cap always yields
the create/0.95 short-circuit judgment, which always passes the 0.75
gate, so it is selected for content generation in every completed
analysis phase; and since a cycle never changes the niche labels, the
memory left by the cycle classifies the candidate identically, for every
oracle outcome — nothing prevents re-creating the same product each
cycle. -/
theorem C9_success_always_recreates (env : Env) (m m1 : MemoryRecord)
    (pts : List Json) (c : Candidate)
    (hf : c.keyword ∉ m.failed_niches) (hs : c.keyword ∈ m.successful_niches)
    (hc : c ∈ search_trends.take 2)
    (h : analyze_loop env (search_trends.take 2) m [] = .ok (m1, pts)) :
    passesGate (ai_analyze_opportunity m (env.evalReply c) c) = true ∧
    ai_analyze_opportunity m (env.evalReply c) c ∈ pts ∧
    (∀ o, ai_analyze_opportunity (cycleMemory (run_cycle env m)) o c =
      Json.obj [("decision", Json.str "create"),
                ("confidence", Json.num 95 100),
                ("trend", Json.str c.keyword),
                ("reasoning", Json.str "Proven success in our history")]) := by
  have hj : ai_analyze_opportunity m (env.evalReply c) c =
      Json.obj [("decision", Json.str "create"), ("confidence", Json.num 95 100),
                ("trend", Json.str c.keyword),
                ("reasoning", Json.str "Proven success in our history")] := by
    simp [ai_analyze_opportunity, hf, hs]
  have hpg : passesGate (ai_analyze_opportunity m (env.evalReply c) c) = true := by
    rw [hj]
    rfl
  refine ⟨hpg, ?_, ?_⟩
  · obtain ⟨hpts, _⟩ := analyze_loop_ok _ _ _ _ _ h
    rw [hpts]
    simp only [List.nil_append]
    exact List.mem_filter.mpr ⟨List.mem_map_of_mem _ hc, hpg⟩
  · intro o
    obtain ⟨hsucc, hfail, _⟩ := run_cycle_extends env m
    have hf' : c.keyword ∉ (cycleMemory (run_cycle env m)).failed_niches := by
      rw [hfail]
      exact hf
    have hs' : c.keyword ∈ (cycleMemory (run_cycle env m)).successful_niches := by
      rw [hsucc]
      exact hs
    simp [ai_analyze_opportunity, hf', hs']

/-- C9 (witness): the first trend's keyword as a successful niche is
selected for generation this cycle, and the cycle's resulting memory
produces the identical create/0.95 judgment again. -/
theorem C9_witness :
    passesGate (ai_analyze_opportunity c9Memory
      (sampleEnv.evalReply aiPromptCandidate) aiPromptCandidate) = true ∧
    ai_analyze_opportunity c9Memory (sampleEnv.evalReply aiPromptCandidate)
        aiPromptCandidate ∈
      [Json.obj [("decision", Json.str "create"), ("confidence", Json.num 95 100),
                 ("trend", Json.str "AI prompt templates for ChatGPT"),
                 ("reasoning", Json.str "Proven success in our history")]] ∧
    ai_analyze_opportunity (cycleMemory (run_cycle sampleEnv c9Memory)) none
        aiPromptCandidate =
      Json.obj [("decision", Json.str "create"), ("confidence", Json.num 95 100),
                ("trend", Json.str "AI prompt templates for ChatGPT"),
                ("reasoning", Json.str "Proven success in our history")] :=
  have h := C9_success_always_recreates sampleEnv c9Memory c9CycleMemory
    [Json.obj [("decision", Json.str "create"), ("confidence", Json.num 95 100),
               ("trend", Json.str "AI prompt templates for ChatGPT"),
               ("reasoning", Json.str "Proven success in our history")]]
    aiPromptCandidate (by decide) (by decide) (by decide) rfl
  ⟨h.1, h.2.1, h.2.2 none⟩

/-- C10: a cycle — completed or aborted — leaves `successful_niches`,
`failed_niches`, `total_revenue` and `learnings` unchanged and only
appends to `decisions` and `products_created`; hence the disjointness of
the niche label sets is preserved. -/
theorem C10_cycle_appends_only (env : Env) (m : MemoryRecord) :
    (cycleMemory (run_cycle env m)).successful_niches = m.successful_niches ∧
    (cycleMemory (run_cycle env m)).failed_niches = m.failed_niches ∧
    (cycleMemory (run_cycle env m)).total_revenue = m.total_revenue ∧
    (cycleMemory (run_cycle env m)).learnings = m.learnings ∧
    (∃ ds, (cycleMemory (run_cycle env m)).decisions = m.decisions ++ ds) ∧
    (∃ ps, (cycleMemory (run_cycle env m)).products_created =
      m.products_created ++ ps) ∧
    ((∀ k, k ∈ m.successful_niches → k ∉ m.failed_niches) →
      ∀ k, k ∈ (cycleMemory (run_cycle env m)).successful_niches →
        k ∉ (cycleMemory (run_cycle env m)).failed_niches) := by
  obtain ⟨h1, h2, h3, h4, h5, h6⟩ := run_cycle_extends env m
  refine ⟨h1, h2, h3, h4, h5, h6, ?_⟩
  intro hd k hk
  rw [h1] at hk
  rw [h2]
  exact hd k hk

/-- C10 (witness): the frame conditions evaluated on an all-fallback
cycle over the empty default memory. -/
theorem C10_witness :
    (cycleMemory (run_cycle sampleEnv defaultMemory)).successful_niches =
      defaultMemory.successful_niches ∧
    (cycleMemory (run_cycle sampleEnv defaultMemory)).failed_niches =
      defaultMemory.failed_niches ∧
    (cycleMemory (run_cycle sampleEnv defaultMemory)).total_revenue =
      defaultMemory.total_revenue ∧
    (cycleMemory (run_cycle sampleEnv defaultMemory)).learnings =
      defaultMemory.learnings ∧
    (∃ ds, (cycleMemory (run_cycle sampleEnv defaultMemory)).decisions =
      defaultMemory.decisions ++ ds) ∧
    (∃ ps, (cycleMemory (run_cycle sampleEnv defaultMemory)).products_created =
      defaultMemory.products_created ++ ps) ∧
    (∀ k, k ∈ (cycleMemory (run_cycle sampleEnv defaultMemory)).successful_niches →
      k ∉ (cycleMemory (run_cycle sampleEnv defaultMemory)).failed_niches) :=
  have h := C10_cycle_appends_only sampleEnv defaultMemory
  ⟨h.1, h.2.1, h.2.2.1, h.2.2.2.1, h.2.2.2.2.1, h.2.2.2.2.2.1,
   h.2.2.2.2.2.2 (by simp [defaultMemory])⟩

end Tiger
